import Mathlib

/-!
# Capacity-planning engine: shallow embedding

This file embeds the computational core of `create_capacity_model.py`, a
generator for a pharmacy capacity-planning workbook.  The engine lives in the
cell formulas the script writes; every definition below is a direct
translation of one of those formulas (or of the concrete input data written
to the INPUTS tabs), using exact rational arithmetic.

Worksheet layout recalled in the definitions:
* DEMAND FORECAST: column B = week number, C = daily orders, D = weekly
  orders, E = monthly orders, F = cumulative orders; `$C$6` = weekly growth
  percent (= monthly growth / 4.33), `$C$7` = baseline daily orders,
  `$C$8` = working days per week.
* CAPACITY MODEL: column D = headcount, E = capacity/person/day,
  F = total capacity/week, G = weekly demand, H = utilization, I = backlog,
  J = bottleneck flag; four stage rows plus one blank spacer row per week,
  weeks 1..12 starting at row 11.
* FACILITY & EQUIPMENT: column C = daily orders, D/F/H = hoods/storage/
  stations needed, E/G/I = current available, J = constraint flag;
  weeks 1..52.
-/

/-- Inputs of the `INPUTS - Current State` tab consumed by the demand
forecast: `C18` (baseline daily orders), `C19` (working days per week),
`C26` (monthly growth rate in percent). -/
structure ForecastInputs where
  baselineDailyOrders : ℚ
  workingDaysPerWeek : ℚ
  monthlyGrowthPercent : ℚ
  deriving DecidableEq, Repr

/-- Default input values written to the blue input cells:
`C18 = 800`, `C19 = 5`, `C26 = 5`. -/
def defaultInputs : ForecastInputs := ⟨800, 5, 5⟩

/-- Cell `C6` of DEMAND FORECAST: `=C5/4.33`, the weekly growth rate in
percent derived from the monthly growth percent. -/
def weeklyGrowthPercent (inp : ForecastInputs) : ℚ :=
  inp.monthlyGrowthPercent / (433 / 100)

/-- Column C of DEMAND FORECAST, the daily-orders series.  Row `11 + w`
holds week `w`.  Week 1 is `=$C$7` (the baseline).  For week `w ≥ 2` the
script writes `=B{row-1}*C{row-1}*(1+$C$6/100)/$C$8`: the product of the
PREVIOUS ROW'S WEEK NUMBER (column B, value `w - 1`), the previous daily
orders (column C), the weekly growth factor, divided by working days per
week.  (Column B really is the week-number column; the embedding keeps
that reference as written.) -/
def dailyOrders (inp : ForecastInputs) : ℕ → ℚ
  | 0 => 0
  | 1 => inp.baselineDailyOrders
  | n + 2 =>
      (n + 1 : ℚ) * dailyOrders inp (n + 1) *
        (1 + weeklyGrowthPercent inp / 100) / inp.workingDaysPerWeek

/-- Column D of DEMAND FORECAST: `=C{row}*$C$8`, weekly orders. -/
def weeklyOrders (inp : ForecastInputs) (week : ℕ) : ℚ :=
  dailyOrders inp week * inp.workingDaysPerWeek

/-- Column E of DEMAND FORECAST: `=D{row}*4.33`, approximate monthly
orders. -/
def monthlyOrdersApprox (inp : ForecastInputs) (week : ℕ) : ℚ :=
  weeklyOrders inp week * (433 / 100)

/-- Column F of DEMAND FORECAST: cumulative orders, `=D{row}` at week 1 and
`=F{row-1}+D{row}` afterwards. -/
def cumulativeOrders (inp : ForecastInputs) : ℕ → ℚ
  | 0 => 0
  | 1 => weeklyOrders inp 1
  | n + 2 => cumulativeOrders inp (n + 1) + weeklyOrders inp (n + 2)

/-- The demand-forecast table rows: the script iterates
`for week in range(1, 53)`, one row per week, regardless of the
`Forecast Period (weeks)` input cell `C28` (whose value is never
referenced by any formula).  The argument records that input cell's
value; the generated table does not consume it. -/
def demandForecastWeeks (_forecastPeriodInput : ℕ) : List ℕ :=
  List.range' 1 52

/-- One production stage as fed to the CAPACITY MODEL tab: name, the
headcount input cell (`C10`..`C13` of `INPUTS - Current State`) and the
capacity-per-person input cell (`D10`..`D13`). -/
structure StageInputs where
  name : String
  headcount : ℚ
  capacityPerPerson : ℚ
  deriving DecidableEq, Repr

/-- `INPUTS - Current State` row 10: Pharmacists (Compounding). -/
def compounding : StageInputs := ⟨"Compounding", 6, 50⟩

/-- `INPUTS - Current State` row 11: PV1 Techs. -/
def pv1 : StageInputs := ⟨"PV1 Techs", 4, 200⟩

/-- `INPUTS - Current State` row 12: PV2 Techs. -/
def pv2 : StageInputs := ⟨"PV2 Techs", 3, 160⟩

/-- `INPUTS - Current State` row 13: Fulfillment Staff. -/
def fulfillment : StageInputs := ⟨"Fulfillment", 8, 120⟩

/-- The four stage rows the CAPACITY MODEL tab generates for every week. -/
def capacityStages : List StageInputs := [compounding, pv1, pv2, fulfillment]

/-- Weeks of the CAPACITY MODEL tab: `for week in range(1, 13)` — weeks 1
through 12 only (the source comments this as abbreviated). -/
def capacityModelWeeks : List ℕ := List.range' 1 12

/-- The (week, stage-name) pairs for which the CAPACITY MODEL tab emits a
`StageUtilization` row: each of `capacityModelWeeks` crossed with the four
stages. -/
def capacityModelRows : List (ℕ × String) :=
  capacityModelWeeks.flatMap fun w => capacityStages.map fun s => (w, s.name)

/-- One hiring event of a scenario's hiring plan
(`INPUTS - Scenarios`): role, number to hire, week hired, and onboarding
weeks. -/
structure HiringEvent where
  role : String
  count : ℚ
  effectiveWeek : ℕ
  onboardingWeeks : ℕ
  deriving DecidableEq, Repr

/-- The baseline scenario's hiring plan (`INPUTS - Scenarios` rows 15-18). -/
def baselineHires : List HiringEvent :=
  [⟨"PV2 Techs", 2, 8, 2⟩,
   ⟨"Fulfillment Staff", 1, 12, 1⟩,
   ⟨"Pharmacists", 1, 20, 4⟩,
   ⟨"PV1 Techs", 1, 16, 2⟩]

/-- `INPUTS - Current State` cell `C41`: vial filling machine delivery
week. -/
def vialMachineDeliveryWeek : ℕ := 10

/-- `INPUTS - Current State` cell `C42`: vial machine capacity boost in
percent. -/
def vialMachineBoostPercent : ℚ := 20

/-- Column D of a CAPACITY MODEL stage row, the headcount used for the
given week.  The script emits `if week == 1: value = hc_ref else: value =
hc_ref` — both branches write the same `INPUTS - Current State` headcount
reference, so the cell is the stage's input headcount for every week
(no hiring adjustment is ever applied). -/
def headcountCell (stage : StageInputs) (week : ℕ) : ℚ :=
  if week = 1 then stage.headcount else stage.headcount

/-- Column F of a CAPACITY MODEL stage row:
`=D{row}*E{row}*'INPUTS - Current State'!$C$19` — headcount times
capacity per person times working days per week.  (No equipment-event
multiplier appears in the formula.) -/
def totalWeeklyCapacityCell (stage : StageInputs) (workingDays : ℚ)
    (week : ℕ) : ℚ :=
  headcountCell stage week * stage.capacityPerPerson * workingDays

/-- Column H of a CAPACITY MODEL stage row:
`=IF(F{row}>0,G{row}/F{row},0)` where `F` is total weekly capacity and
`G` is weekly demand. -/
def utilizationCell (cap demand : ℚ) : ℚ :=
  if 0 < cap then demand / cap else 0

/-- Column I of a CAPACITY MODEL stage row:
`=IF(H{row}>1,(G{row}-F{row}),0)`. -/
def backlogCell (util demand cap : ℚ) : ℚ :=
  if 1 < util then demand - cap else 0

/-- Sheet row of the CAPACITY MODEL tab holding week `w` (1-based),
stage index `i` (0-based, the four stages in order).  The generator
starts at `row = 11`, advances one row per stage and one extra blank
spacer row after each week, so week `w` occupies rows
`11 + 5*(w-1) .. 14 + 5*(w-1)`. -/
def stageRow (w : ℕ) (i : Fin 4) : ℕ :=
  11 + 5 * (w - 1) + i

/-- Column H (utilization) of the CAPACITY MODEL tab as laid out on the
sheet, given the utilization `util w i` of each week's stages: row `r`
carries week `(r-11)/5 + 1`, stage `(r-11) % 5` when that lands on one of
the four stage rows of weeks 1..12; the spacer row after each week and
everything after week 12 is blank (`none`). -/
def hCell (util : ℕ → Fin 4 → ℚ) (r : ℕ) : Option ℚ :=
  if h : 11 ≤ r ∧ (r - 11) % 5 < 4 ∧ (r - 11) / 5 < 12 then
    some (util ((r - 11) / 5 + 1) ⟨(r - 11) % 5, h.2.1⟩)
  else none

/-- Excel `MAX` over a range of cells: blank cells are ignored, and an
all-blank range yields 0. -/
def excelMax (cells : List (Option ℚ)) : ℚ :=
  match cells.filterMap id with
  | [] => 0
  | v :: vs => vs.foldl max v

/-- Column J of a CAPACITY MODEL stage row:
`=IF(H{current_row}=MAX($H${row}:$H${row+3}),"YES","")`.  At the moment
this formula is emitted `row == current_row` (the script increments
`row` only at the END of each stage iteration), so the `MAX` window is
the four sheet rows starting at the stage's OWN row: the stage itself,
the remaining stages of its week, and — through the blank spacer — the
first rows of the NEXT week.  `true` stands for `"YES"`. -/
def bottleneckCell (util : ℕ → Fin 4 → ℚ) (w : ℕ) (i : Fin 4) : Bool :=
  decide (util w i =
    excelMax ((List.range' (stageRow w i) 4).map (hCell util)))

/-- A concrete utilization assignment exercising the bottleneck formula:
week 1 rises to its maximum `19/20` at the fourth stage, week 2 opens
with utilization `1`, and week 12 has its maximum `9/10` at the first
stage with the fourth stage far below at `1/10`. -/
def exampleUtil (w : ℕ) (i : Fin 4) : ℚ :=
  if w = 1 then
    (if i.val = 3 then 19/20 else if i.val = 2 then 9/10
     else if i.val = 1 then 3/5 else 1/2)
  else if w = 2 then (if i.val = 0 then 1 else 0)
  else if w = 12 then
    (if i.val = 0 then 9/10 else if i.val = 3 then 1/10 else 1/2)
  else 0

/-- One facility resource row of `INPUTS - Current State` section 4:
current available units (`C34`..`C36`), max capacity (`D34`..`D36`) and
orders per unit per day (`E34`..`E36`). -/
structure FacilityResource where
  name : String
  currentUnits : ℚ
  maxUnits : ℚ
  perUnitPerDay : ℚ
  deriving DecidableEq, Repr

/-- `INPUTS - Current State` row 34. -/
def hoods : FacilityResource := ⟨"Compounding Hoods", 6, 8, 60⟩

/-- `INPUTS - Current State` row 35. -/
def storage : FacilityResource := ⟨"Storage (sq ft)", 8000, 12000, 10⟩

/-- `INPUTS - Current State` row 36. -/
def stations : FacilityResource := ⟨"Packing Stations", 10, 15, 100⟩

/-- Excel `ROUNDUP(x, 0)`: round away from zero to an integer. -/
def roundupExcel (x : ℚ) : ℤ :=
  if 0 ≤ x then ⌈x⌉ else -⌈-x⌉

/-- Column D of the FACILITY & EQUIPMENT forecast:
`=ROUNDUP(C{row}/'INPUTS - Current State'!$E$34,0)` — daily orders
divided by orders per hood per day, rounded up. -/
def hoodsNeededCell (daily : ℚ) (res : FacilityResource) : ℤ :=
  roundupExcel (daily / res.perUnitPerDay)

/-- Column F of the FACILITY & EQUIPMENT forecast:
`=ROUNDUP(C{row}*'INPUTS - Current State'!$E$35,0)` — daily orders
MULTIPLIED by the storage rate, rounded up. -/
def storageNeededCell (daily : ℚ) (res : FacilityResource) : ℤ :=
  roundupExcel (daily * res.perUnitPerDay)

/-- Column H of the FACILITY & EQUIPMENT forecast:
`=ROUNDUP(C{row}/'INPUTS - Current State'!$E$36,0)`. -/
def stationsNeededCell (daily : ℚ) (res : FacilityResource) : ℤ :=
  roundupExcel (daily / res.perUnitPerDay)

/-- Column J of the FACILITY & EQUIPMENT forecast:
`=IF(OR(D{row}>E{row},F{row}>G{row},H{row}>I{row}),"CONSTRAINT","")`.
Columns E, G, I are `='INPUTS - Current State'!$C$34/$C$35/$C$36`, the
CURRENT available units of each resource; `true` stands for
`"CONSTRAINT"`. -/
def constraintCell (daily : ℚ) (h s p : FacilityResource) : Bool :=
  decide (h.currentUnits < (hoodsNeededCell daily h : ℚ)) ||
  decide (s.currentUnits < (storageNeededCell daily s : ℚ)) ||
  decide (p.currentUnits < (stationsNeededCell daily p : ℚ))

/-- Rows 8-10 of FACILITY & EQUIPMENT, the current-status summary:
utilization `=C{r}/D{r}` compares CURRENT available against MAX
capacity. -/
def facilitySummaryUtil (res : FacilityResource) : ℚ :=
  res.currentUnits / res.maxUnits

/-- Weeks of the FACILITY & EQUIPMENT forecast table:
`for week in range(1, 53)`. -/
def facilityForecastWeeks : List ℕ := List.range' 1 52

/-- SCENARIO COMPARISON row 9, Baseline column:
`='DEMAND FORECAST'!C23`, the week-12 daily orders of the (single) demand
forecast tab. -/
def week12DailyBaseline (inp : ForecastInputs) : ℚ := dailyOrders inp 12

/-- SCENARIO COMPARISON row 9, Optimistic column: `=C9*1.04` — the
Baseline cell scaled by 1.04. -/
def week12DailyOptimistic (inp : ForecastInputs) : ℚ :=
  week12DailyBaseline inp * (104 / 100)

/-- SCENARIO COMPARISON row 9, Pessimistic column: `=C9*0.96`. -/
def week12DailyPessimistic (inp : ForecastInputs) : ℚ :=
  week12DailyBaseline inp * (96 / 100)

/-- SCENARIO COMPARISON row 10, Baseline column: `='DEMAND FORECAST'!C35`
(week 24). -/
def week24DailyBaseline (inp : ForecastInputs) : ℚ := dailyOrders inp 24

/-- SCENARIO COMPARISON row 10, Optimistic column: `=C10*1.08`. -/
def week24DailyOptimistic (inp : ForecastInputs) : ℚ :=
  week24DailyBaseline inp * (108 / 100)

/-- SCENARIO COMPARISON row 10, Pessimistic column: `=C10*0.92`. -/
def week24DailyPessimistic (inp : ForecastInputs) : ℚ :=
  week24DailyBaseline inp * (92 / 100)

/-- SCENARIO COMPARISON row 11, Baseline column: `='DEMAND FORECAST'!C63`
(week 52). -/
def week52DailyBaseline (inp : ForecastInputs) : ℚ := dailyOrders inp 52

/-- SCENARIO COMPARISON row 11, Optimistic column: `=C11*1.16`. -/
def week52DailyOptimistic (inp : ForecastInputs) : ℚ :=
  week52DailyBaseline inp * (116 / 100)

/-- SCENARIO COMPARISON row 11, Pessimistic column: `=C11*0.84`. -/
def week52DailyPessimistic (inp : ForecastInputs) : ℚ :=
  week52DailyBaseline inp * (84 / 100)

/-- Monthly growth percent of each scenario (`INPUTS - Scenarios` row 8):
Baseline 5, Optimistic 7, Pessimistic 3. -/
def scenarioGrowthPercent : String → ℚ
  | "Optimistic" => 7
  | "Pessimistic" => 3
  | _ => 5

/-- For the refinement comparison of the scenario tab (claim about
independent per-scenario pipeline runs): the demand pipeline as the spec
words it — `dailyOrders[1] = baseline`,
`dailyOrders[w] = dailyOrders[w-1] * workingDays * (1 + weeklyGrowthRate)
/ workingDays` with `weeklyGrowthRate = monthlyGrowthPercent/4.33/100`,
run with a scenario's own growth rate. -/
def dailyOrdersPerSpec (baseline workingDays monthlyGrowthPercent : ℚ) :
    ℕ → ℚ
  | 0 => 0
  | 1 => baseline
  | n + 2 =>
      dailyOrdersPerSpec baseline workingDays monthlyGrowthPercent (n + 1) *
        workingDays * (1 + monthlyGrowthPercent / (433 / 100) / 100) /
        workingDays

/-- C1: evaluation of the demand recurrence at the failing input.  Under
the default inputs (baseline 800, 5 working days, 5% monthly growth) the
week-2 daily-orders cell evaluates to `70080/433 ≈ 161.85`, which is NOT
`dailyOrders[1] * workingDaysPerWeek * (1 + weeklyGrowthRate) /
workingDaysPerWeek = 350400/433 ≈ 809.24` as the claim states: the
formula's first factor is column B (the previous row's week number, here
1), not the weekly-orders column D. -/
theorem claim1_demand_recurrence_week2 :
    dailyOrders defaultInputs 1 = 800 ∧
    dailyOrders defaultInputs 2 = 70080 / 433 ∧
    dailyOrders defaultInputs 2 ≠
      dailyOrders defaultInputs 1 * defaultInputs.workingDaysPerWeek *
        (1 + weeklyGrowthPercent defaultInputs / 100) /
        defaultInputs.workingDaysPerWeek ∧
    dailyOrders defaultInputs 2 < 200 := by
  refine ⟨rfl, ?_, ?_, ?_⟩ <;>
    norm_num [dailyOrders, weeklyGrowthPercent, defaultInputs]

/-- C2: the capacity model's headcount column ignores hiring events.  The
baseline plan hires 2 PV2 Techs at week 8 with 2 onboarding weeks, so the
claim demands headcount `3 + 2` from week 10 on; the week-10/11/12 cells
still evaluate to the base headcount 3 (the script writes the same input
reference for every week). -/
theorem claim2_hiring_ignored :
    (⟨"PV2 Techs", 2, 8, 2⟩ : HiringEvent) ∈ baselineHires ∧
    pv2.headcount = 3 ∧
    headcountCell pv2 10 = 3 ∧
    headcountCell pv2 11 = 3 ∧
    headcountCell pv2 12 = 3 ∧
    headcountCell pv2 12 ≠ pv2.headcount + 2 := by
  refine ⟨by simp [baselineHires], rfl, ?_, ?_, ?_, ?_⟩ <;>
    norm_num [headcountCell, pv2]

/-- C3 counterexample: the capacity formula carries no equipment
multiplier.  The sole equipment event of the inputs (vial machine,
effective week 10, boost 20%) would, for whichever stage it applies to,
make that stage's week-10 capacity `base * (1 + 20/100)`; but at week 10
every stage's capacity cell evaluates to its unboosted base value, which
differs from the boosted one, so the claimed identity fails at week 10
for the stage the event applies to. -/
theorem claim3_counterexample :
    vialMachineDeliveryWeek = 10 ∧
    totalWeeklyCapacityCell compounding 5 10 = 1500 ∧
    totalWeeklyCapacityCell pv1 5 10 = 4000 ∧
    totalWeeklyCapacityCell pv2 5 10 = 2400 ∧
    totalWeeklyCapacityCell fulfillment 5 10 = 4800 ∧
    (1500 : ℚ) ≠ 1500 * (1 + vialMachineBoostPercent / 100) ∧
    (4000 : ℚ) ≠ 4000 * (1 + vialMachineBoostPercent / 100) ∧
    (2400 : ℚ) ≠ 2400 * (1 + vialMachineBoostPercent / 100) ∧
    (4800 : ℚ) ≠ 4800 * (1 + vialMachineBoostPercent / 100) := by
  refine ⟨rfl, ?_, ?_, ?_, ?_, ?_, ?_, ?_, ?_⟩ <;>
    norm_num [totalWeeklyCapacityCell, headcountCell, compounding, pv1,
      pv2, fulfillment, vialMachineBoostPercent]

/-- C3 amended: for every stage, working-days value and week, the total
weekly capacity cell equals headcount × capacity-per-person × working
days, with no capacity multiplier; in particular it is the same in every
week (equipment events never change it). -/
theorem claim3_amended (stage : StageInputs) (days : ℚ) (w : ℕ) :
    totalWeeklyCapacityCell stage days w =
      stage.headcount * stage.capacityPerPerson * days ∧
    totalWeeklyCapacityCell stage days w =
      totalWeeklyCapacityCell stage days 1 := by
  constructor <;> simp [totalWeeklyCapacityCell, headcountCell]

/-- C4 counterexample: the storage row does not divide demand by the
per-unit throughput.  At the input-tab values (daily orders 800, storage
rate 10) the storage-needed cell evaluates to `ROUNDUP(800*10) = 8000`,
not `ceil(800/10) = 80`. -/
theorem claim4_counterexample :
    storage.perUnitPerDay = 10 ∧
    storageNeededCell 800 storage = 8000 ∧
    roundupExcel (800 / storage.perUnitPerDay) = 80 ∧
    (8000 : ℤ) ≠ 80 := by
  refine ⟨rfl, ?_, ?_, by norm_num⟩ <;>
    norm_num [storageNeededCell, roundupExcel, storage]

/-- C4 amended: hoods and packing stations are provisioned as
`ceil(dailyOrders / throughputPerUnitPerDay)` — demand over per-unit
throughput rounded up, never down — while the storage row instead rounds
up `dailyOrders * perUnitRate` (a multiplicative space requirement). -/
theorem claim4_amended (daily : ℚ) (res : FacilityResource)
    (hd : 0 ≤ daily) (hr : 0 < res.perUnitPerDay) :
    hoodsNeededCell daily res = ⌈daily / res.perUnitPerDay⌉ ∧
    stationsNeededCell daily res = ⌈daily / res.perUnitPerDay⌉ ∧
    storageNeededCell daily res = ⌈daily * res.perUnitPerDay⌉ ∧
    daily / res.perUnitPerDay ≤ (hoodsNeededCell daily res : ℚ) ∧
    daily / res.perUnitPerDay ≤ (stationsNeededCell daily res : ℚ) := by
  have hdiv : (0 : ℚ) ≤ daily / res.perUnitPerDay := div_nonneg hd hr.le
  have hmul : (0 : ℚ) ≤ daily * res.perUnitPerDay :=
    mul_nonneg hd hr.le
  refine ⟨?_, ?_, ?_, ?_, ?_⟩ <;>
    simp [hoodsNeededCell, stationsNeededCell, storageNeededCell,
      roundupExcel, hdiv, hmul, Int.le_ceil]

/-- C4 witness: the spec's own example — 350 daily orders against a
throughput of 60 per unit per day yields 6 units needed, not 5. -/
theorem claim4_witness :
    hoodsNeededCell 350 hoods = ⌈(350 : ℚ) / hoods.perUnitPerDay⌉ ∧
    hoodsNeededCell 350 hoods = 6 := by
  have h := claim4_amended 350 hoods (by norm_num) (by norm_num [hoods])
  refine ⟨h.1, ?_⟩
  rw [h.1]
  norm_num [hoods, Int.ceil_eq_iff]

/-- C5 counterexample: at 400 daily orders, 7 hoods are needed — more
than the 6 currently available but within the physical maximum of 8 (and
storage/stations are within both bounds) — yet the constraint cell fires:
the flag compares needed against CURRENT available units, not against
`maxUnits` as the claim states. -/
theorem claim5_counterexample :
    constraintCell 400 hoods storage stations = true ∧
    hoodsNeededCell 400 hoods = 7 ∧
    storageNeededCell 400 storage = 4000 ∧
    stationsNeededCell 400 stations = 4 ∧
    ¬(hoods.maxUnits < ((7 : ℤ) : ℚ) ∨
      storage.maxUnits < ((4000 : ℤ) : ℚ) ∨
      stations.maxUnits < ((4 : ℤ) : ℚ)) := by
  have hh : hoodsNeededCell 400 hoods = 7 := by
    norm_num [hoodsNeededCell, roundupExcel, hoods, Int.ceil_eq_iff]
  have hs : storageNeededCell 400 storage = 4000 := by
    norm_num [storageNeededCell, roundupExcel, storage]
  have hp : stationsNeededCell 400 stations = 4 := by
    norm_num [stationsNeededCell, roundupExcel, stations]
  refine ⟨?_, hh, hs, hp, ?_⟩
  · simp only [constraintCell, hh, hs, hp]
    norm_num [hoods, storage, stations]
  · push_neg
    norm_num [hoods, storage, stations]

/-- C5 amended: the weekly constraint flag is a single per-week cell that
fires exactly when some resource's needed units exceed its CURRENT
available units; it does not depend on the `maxUnits` inputs at all (the
physical-ceiling column only feeds the separate current-vs-max summary
utilization). -/
theorem claim5_amended (daily : ℚ) (h s p : FacilityResource) :
    (constraintCell daily h s p = true ↔
      (h.currentUnits < (hoodsNeededCell daily h : ℚ) ∨
       s.currentUnits < (storageNeededCell daily s : ℚ) ∨
       p.currentUnits < (stationsNeededCell daily p : ℚ))) ∧
    (∀ m1 m2 m3 : ℚ,
      constraintCell daily
          ⟨h.name, h.currentUnits, m1, h.perUnitPerDay⟩
          ⟨s.name, s.currentUnits, m2, s.perUnitPerDay⟩
          ⟨p.name, p.currentUnits, m3, p.perUnitPerDay⟩ =
        constraintCell daily h s p) ∧
    facilitySummaryUtil h = h.currentUnits / h.maxUnits := by
  refine ⟨?_, ?_, rfl⟩
  · simp [constraintCell, or_assoc]
  · intro m1 m2 m3
    simp [constraintCell, hoodsNeededCell, storageNeededCell,
      stationsNeededCell]

/-- C6: the utilization cell `=IF(F>0,G/F,0)` equals demand/capacity
exactly when the capacity is positive (so that multiplying back by the
capacity recovers the demand), and equals 0 — not an error, NaN or
infinity — when the capacity is zero. -/
theorem claim6_utilization (cap demand : ℚ) :
    (cap = 0 → utilizationCell cap demand = 0) ∧
    (0 < cap → utilizationCell cap demand = demand / cap) ∧
    (0 < cap → utilizationCell cap demand * cap = demand) := by
  refine ⟨fun hc => ?_, fun hc => ?_, fun hc => ?_⟩
  · simp [utilizationCell, hc]
  · simp [utilizationCell, hc]
  · simp [utilizationCell, hc]
    exact div_mul_cancel₀ demand hc.ne'

/-- C6 witness: with zero capacity the utilization is 0; with capacity
2500 and demand 4000 it is exactly 4000/2500. -/
theorem claim6_witness :
    utilizationCell 0 4000 = 0 ∧
    utilizationCell 2500 4000 = 4000 / 2500 :=
  ⟨(claim6_utilization 0 4000).1 rfl,
   (claim6_utilization 2500 4000).2.1 (by norm_num)⟩

/-- C7: evaluation of the bottleneck formula at a failing input.  Under
`exampleUtil`, the fourth stage of week 1 attains the week's maximum
utilization `19/20`, yet its bottleneck cell (row 14, window
`MAX(H14:H17)`) is NOT flagged, because the window reaches across the
spacer into week 2's first row, whose utilization 1 is larger; and the
fourth stage of week 12 (row 69, window `MAX(H69:H72)`, all later rows
blank) IS flagged although its utilization `1/10` is strictly below the
week's maximum `9/10`.  The claim — every stage attaining its week's
maximum is flagged — therefore fails on the emitted formula, whose `MAX`
range is anchored at each stage's own row instead of the week's first
stage row. -/
theorem claim7_sliding_window_eval :
    (exampleUtil 1 ⟨0, by norm_num⟩ ≤ exampleUtil 1 ⟨3, by norm_num⟩ ∧
     exampleUtil 1 ⟨1, by norm_num⟩ ≤ exampleUtil 1 ⟨3, by norm_num⟩ ∧
     exampleUtil 1 ⟨2, by norm_num⟩ ≤ exampleUtil 1 ⟨3, by norm_num⟩) ∧
    bottleneckCell exampleUtil 1 ⟨3, by norm_num⟩ = false ∧
    (exampleUtil 12 ⟨3, by norm_num⟩ < exampleUtil 12 ⟨0, by norm_num⟩ ∧
     bottleneckCell exampleUtil 12 ⟨3, by norm_num⟩ = true) := by
  refine ⟨⟨?_, ?_, ?_⟩, ?_, ?_, ?_⟩ <;>
    norm_num [bottleneckCell, excelMax, hCell, stageRow, exampleUtil,
      List.range', List.filterMap_cons, List.filterMap_nil, id_eq,
      List.foldl_cons, List.foldl_nil, max_def]

/-- C8 counterexample: with a forecast-period input of 10 weeks the
demand-forecast table still has 52 rows, not 10 — the generation loop is
`range(1, 53)` and never reads the `Forecast Period (weeks)` cell. -/
theorem claim8_counterexample :
    (demandForecastWeeks 10).length = 52 ∧
    (demandForecastWeeks 10).length ≠ 10 := by
  constructor <;> simp [demandForecastWeeks]

/-- C8 amended: whatever the forecast-period input, the demand forecast
is an ordered, duplicate-free sequence of exactly 52 weekly rows, one per
week from 1 to 52 (the fixed default horizon). -/
theorem claim8_amended (horizonInput : ℕ) :
    (demandForecastWeeks horizonInput).length = 52 ∧
    List.Pairwise (· < ·) (demandForecastWeeks horizonInput) ∧
    (demandForecastWeeks horizonInput).Nodup ∧
    ∀ w, w ∈ demandForecastWeeks horizonInput ↔ (1 ≤ w ∧ w ≤ 52) := by
  refine ⟨by simp [demandForecastWeeks], List.pairwise_lt_range' 1 52,
    (List.pairwise_lt_range' 1 52).nodup, fun w => ?_⟩
  rw [demandForecastWeeks, List.mem_range'_1]
  omega

/-- C9 counterexample: the SCENARIO COMPARISON Optimistic and Pessimistic
week-12 order cells are `=C9*1.04` and `=C9*0.96` — scalings of the
Baseline cell — and do not equal an independent pipeline run of the
forecast recurrence with the scenario's own growth rate (7% resp. 3%
monthly) on the shared baseline of 800 daily orders and 5 working days. -/
theorem claim9_counterexample :
    week12DailyOptimistic defaultInputs =
      dailyOrders defaultInputs 12 * (104 / 100) ∧
    week12DailyPessimistic defaultInputs =
      dailyOrders defaultInputs 12 * (96 / 100) ∧
    week12DailyOptimistic defaultInputs ≠
      dailyOrdersPerSpec 800 5 (scenarioGrowthPercent "Optimistic") 12 ∧
    week12DailyPessimistic defaultInputs ≠
      dailyOrdersPerSpec 800 5 (scenarioGrowthPercent "Pessimistic") 12 := by
  refine ⟨rfl, rfl, ?_, ?_⟩ <;>
    norm_num [week12DailyOptimistic, week12DailyPessimistic,
      week12DailyBaseline, dailyOrders, dailyOrdersPerSpec,
      weeklyGrowthPercent, defaultInputs, scenarioGrowthPercent]

/-- C9 amended: every Optimistic/Pessimistic order-volume cell of the
comparison tab is a fixed scalar multiple (1.04/0.96 at week 12,
1.08/0.92 at week 24, 1.16/0.84 at week 52) of the corresponding Baseline
cell, which itself reads the single shared DEMAND FORECAST series; no
per-scenario pipeline run is performed. -/
theorem claim9_amended (inp : ForecastInputs) :
    week12DailyBaseline inp = dailyOrders inp 12 ∧
    week12DailyOptimistic inp = week12DailyBaseline inp * (104 / 100) ∧
    week12DailyPessimistic inp = week12DailyBaseline inp * (96 / 100) ∧
    week24DailyOptimistic inp = week24DailyBaseline inp * (108 / 100) ∧
    week24DailyPessimistic inp = week24DailyBaseline inp * (92 / 100) ∧
    week52DailyOptimistic inp = week52DailyBaseline inp * (116 / 100) ∧
    week52DailyPessimistic inp = week52DailyBaseline inp * (84 / 100) :=
  ⟨rfl, rfl, rfl, rfl, rfl, rfl, rfl⟩

/-- C10: for every week from 13 to 52 and every stage name, the CAPACITY
MODEL tab emits no stage-utilization row — its loop stops at week 12 —
although the same week does get a DEMAND FORECAST row and a FACILITY &
EQUIPMENT row; week 12 itself still has stage rows. -/
theorem claim10_capacity_stops_at_12 (w : ℕ) (h13 : 13 ≤ w)
    (h52 : w ≤ 52) :
    (∀ s : String, (w, s) ∉ capacityModelRows) ∧
    w ∈ demandForecastWeeks 52 ∧
    w ∈ facilityForecastWeeks ∧
    (12, "PV2 Techs") ∈ capacityModelRows := by
  refine ⟨fun s hmem => ?_, ?_, ?_, ?_⟩
  · rw [capacityModelRows, List.mem_flatMap] at hmem
    obtain ⟨w', hw', hmap⟩ := hmem
    rw [capacityModelWeeks, List.mem_range'_1] at hw'
    rw [List.mem_map] at hmap
    obtain ⟨st, _, heq⟩ := hmap
    injection heq with h1 h2
    omega
  · rw [demandForecastWeeks, List.mem_range'_1]; omega
  · rw [facilityForecastWeeks, List.mem_range'_1]; omega
  · rw [capacityModelRows, List.mem_flatMap]
    refine ⟨12, ?_, ?_⟩
    · rw [capacityModelWeeks, List.mem_range'_1]; omega
    · simp [capacityStages, pv2]

/-- C10 witness: week 20 concretely — no capacity-model row for the PV2
stage, yet demand-forecast and facility rows exist. -/
theorem claim10_witness :
    (20, "PV2 Techs") ∉ capacityModelRows ∧
    20 ∈ demandForecastWeeks 52 ∧
    20 ∈ facilityForecastWeeks :=
  ⟨(claim10_capacity_stops_at_12 20 (by norm_num) (by norm_num)).1
      "PV2 Techs",
   (claim10_capacity_stops_at_12 20 (by norm_num) (by norm_num)).2.1,
   (claim10_capacity_stops_at_12 20 (by norm_num) (by norm_num)).2.2.1⟩
